import Mathlib

/-!
# Verification of the SkywageV2 backend identity/authorization core

Shallow embedding of the Django backend in `backend/` (apps `authentication`
and `core`): the data model (`core/models.py`), the registration endpoint and
self-profile endpoint (`authentication/views.py`), the token-claim enrichment
(`authentication/serializers.py`), and the per-resource queryset scoping
(`core/views.py`).

Modelling conventions:
- Database tables are Lean lists of rows; a Django `.create(...)` appends a
  row.  Auto-generated primary keys and timestamps are passed in explicitly
  (`newId`, `now`) since the database generates them.
- `request.data.get(key)` yields `Option String`; Python truthiness of such a
  value is `truthy` below (absent or empty string is falsy).
- `Model.objects.get(field=v)` raises `DoesNotExist` when no row matches and
  `MultipleObjectsReturned` when several match; it is modelled by `profileGet`
  returning `Except GetErr Profile`.  An `except Model.DoesNotExist` clause in
  the views catches only the first error; the second would propagate as a
  server error, which the embedding keeps visible.
- `FloatField` money/hour amounts are modelled as `Rat` (no claim depends on
  floating-point rounding); the `JSONField` settings document is modelled
  opaquely as its serialized `String`.
- Django's `.objects.create` does not validate `choices` on a `CharField`
  (only `full_clean` does), so `register_user` stores `position` verbatim,
  exactly as the Python code does.
-/

deriving instance DecidableEq for Except

namespace Skywage

/-- A row of Django's built-in `auth_user` table (the Credential store):
`create_user` stores `id`, `username`, `email`, the password hash, and the
optional name fields used by this backend. -/
structure Credential where
  id : Nat
  username : String
  email : String
  passwordHash : String
  first_name : String
  last_name : String
deriving DecidableEq

/-- `core.models.Profile`: id (primary key), unique email, airline,
position (a `CharField` whose `choices` are CCM/SCCM), optional nationality,
and the auto timestamps. -/
structure Profile where
  id : Nat
  email : String
  airline : String
  position : String
  nationality : Option String
  created_at : Nat
  updated_at : Nat
deriving DecidableEq

/-- `core.models.Flight`: `user` is the foreign key to the owning Profile
(stored as that Profile's primary key). -/
structure Flight where
  id : Nat
  user : Nat
  date : String
  flight_number : String
  sector : String
  reporting_time : String
  debriefing_time : String
  hours : Rat
  pay : Rat
  is_outbound : Bool
  is_turnaround : Bool
  is_layover : Bool
  is_asby : Bool
  month : Int
  year : Int
  created_at : Nat
  updated_at : Nat
deriving DecidableEq

/-- `core.models.MonthlyCalculation`. -/
structure MonthlyCalculation where
  id : Nat
  user : Nat
  month : Int
  year : Int
  total_flight_hours : Rat
  flight_pay : Rat
  basic_salary : Rat
  housing_allowance : Rat
  transportation_allowance : Rat
  total_salary : Rat
  created_at : Nat
  updated_at : Nat
deriving DecidableEq

/-- `core.models.UserSettings`: `user` is a one-to-one foreign key to the
owning Profile; the JSON settings document is kept opaque. -/
structure UserSettings where
  id : Nat
  user : Nat
  settings : String
  created_at : Nat
  updated_at : Nat
deriving DecidableEq

/-- The persistent store: one list per table. -/
structure DB where
  users : List Credential
  profiles : List Profile
  flights : List Flight
  monthly_calculations : List MonthlyCalculation
  user_settings : List UserSettings
deriving DecidableEq

/-- The registration request payload as read by `register_user` via
`request.data.get`: every field may be absent. -/
structure RegisterRequest where
  username : Option String
  email : Option String
  password : Option String
  first_name : Option String
  last_name : Option String
  airline : Option String
  position : Option String
deriving DecidableEq

/-- Python truthiness of a `request.data.get` result: `None` and the empty
string are falsy. -/
def truthy : Option String → Bool
  | none => false
  | some s => !s.isEmpty

/-- Password hashing done by `User.objects.create_user` (external Django
machinery); modelled as a fixed tagging function, since no claim depends on
the hash value itself. -/
def hashPassword (raw : String) : String := "hashed-" ++ raw

/-- The output of `UserSerializer` (`authentication/serializers.py` lines
6-10): exactly the fields id, username, email, first_name, last_name. -/
structure UserPublic where
  id : Nat
  username : String
  email : String
  first_name : String
  last_name : String
deriving DecidableEq

/-- `UserSerializer(user).data`. -/
def userSerializer (u : Credential) : UserPublic :=
  ⟨u.id, u.username, u.email, u.first_name, u.last_name⟩

/-- Outcome of the registration endpoint: a 400 response with an error
message, or a 201 response carrying the message and serialized user. -/
inductive RegisterResult where
  | badRequest (error : String)
  | created (message : String) (user : UserPublic)
deriving DecidableEq

/-- The presence check `all([username, email, password, airline, position])`
from `register_user` (views.py line 34). -/
def requiredPresent (rq : RegisterRequest) : Bool :=
  truthy rq.username && truthy rq.email && truthy rq.password &&
    truthy rq.airline && truthy rq.position

/-- `User.objects.filter(username=username).exists()`. -/
def usernameExists (users : List Credential) (username : String) : Bool :=
  users.any (fun u => u.username == username)

/-- `User.objects.filter(email=email).exists() or
Profile.objects.filter(email=email).exists()` (views.py line 47). -/
def emailExists (db : DB) (email : String) : Bool :=
  db.users.any (fun u => u.email == email) ||
    db.profiles.any (fun p => p.email == email)

/-- The Credential row built by `User.objects.create_user` inside
`register_user`; `newId` is the database-generated primary key. -/
def mkCredential (rq : RegisterRequest) (newId : Nat) : Credential :=
  ⟨newId, rq.username.getD "", rq.email.getD "",
    hashPassword (rq.password.getD ""), rq.first_name.getD "",
    rq.last_name.getD ""⟩

/-- The Profile row built by `Profile.objects.create` inside `register_user`:
`id` is the new user's id, email/airline/position come verbatim from the
payload, nationality is not set, timestamps are auto-filled. -/
def mkRegProfile (rq : RegisterRequest) (newId now : Nat) : Profile :=
  ⟨newId, rq.email.getD "", rq.airline.getD "", rq.position.getD "",
    none, now, now⟩

/-- `register_user` (`authentication/views.py` lines 18-77): validate
presence, then username uniqueness, then email uniqueness against both
stores; on success create the Credential and then the paired Profile and
return 201 with the serialized user. -/
def register_user (db : DB) (rq : RegisterRequest) (newId now : Nat) :
    RegisterResult × DB :=
  if !requiredPresent rq then
    (.badRequest ("Username, email, password, airline, and position are required"), db)
  else if usernameExists db.users (rq.username.getD "") then
    (.badRequest ("Username already exists"), db)
  else if emailExists db (rq.email.getD "") then
    (.badRequest ("Email already exists"), db)
  else
    (.created ("User registered successfully") (userSerializer (mkCredential rq newId)),
      { db with
          users := db.users ++ [mkCredential rq newId],
          profiles := db.profiles ++ [mkRegProfile rq newId now] })

/-- The two exceptions `Model.objects.get` can raise: `DoesNotExist` and
`MultipleObjectsReturned`. -/
inductive GetErr where
  | doesNotExist
  | multipleReturned
deriving DecidableEq

/-- `Profile.objects.filter(email=email)`, the row set the Identity Binder
works on. -/
def findProfiles (profiles : List Profile) (email : String) : List Profile :=
  profiles.filter (fun p => p.email == email)

/-- `Profile.objects.get(email=email)`: the unique matching row, or the
exception that `.get` raises. -/
def profileGet (profiles : List Profile) (email : String) :
    Except GetErr Profile :=
  match findProfiles profiles email with
  | [] => .error .doesNotExist
  | [p] => .ok p
  | _ :: _ :: _ => .error .multipleReturned

/-- The profile-derived claims that `CustomTokenObtainPairSerializer.get_token`
adds on top of the base token: each is absent when no Profile was found. -/
structure TokenClaims where
  airline : Option String
  position : Option String
  profile_id : Option String
deriving DecidableEq

/-- `CustomTokenObtainPairSerializer.get_token`
(`authentication/serializers.py` lines 17-32): look the Profile up by the
user's email; on success add airline, position and the stringified profile
id to the token; `DoesNotExist` is swallowed and the token issued bare;
`MultipleObjectsReturned` is not caught and would abort issuance. -/
def get_token (profiles : List Profile) (user : Credential) :
    Except GetErr TokenClaims :=
  match profileGet profiles user.email with
  | .ok p => .ok ⟨some p.airline, some p.position, some (toString p.id)⟩
  | .error .doesNotExist => .ok ⟨none, none, none⟩
  | .error .multipleReturned => .error .multipleReturned

/-- Common shape of the three scoped `get_queryset` methods in
`core/views.py`: resolve the caller's Profile by email, filter the rows by
the owning-Profile foreign key; `DoesNotExist` yields the empty queryset;
`MultipleObjectsReturned` is not caught. -/
def ownedQueryset {α : Type} (profiles : List Profile) (email : String)
    (rows : List α) (owner : α → Nat) : Except GetErr (List α) :=
  match profileGet profiles email with
  | .ok p => .ok (rows.filter (fun r => owner r == p.id))
  | .error .doesNotExist => .ok []
  | .error .multipleReturned => .error .multipleReturned

/-- `FlightViewSet.get_queryset` (`core/views.py` lines 31-37). -/
def FlightViewSet.get_queryset (db : DB) (email : String) :
    Except GetErr (List Flight) :=
  ownedQueryset db.profiles email db.flights Flight.user

/-- `MonthlyCalculationViewSet.get_queryset` (`core/views.py` lines 47-53). -/
def MonthlyCalculationViewSet.get_queryset (db : DB) (email : String) :
    Except GetErr (List MonthlyCalculation) :=
  ownedQueryset db.profiles email db.monthly_calculations MonthlyCalculation.user

/-- `UserSettingsViewSet.get_queryset` (`core/views.py` lines 63-69). -/
def UserSettingsViewSet.get_queryset (db : DB) (email : String) :
    Except GetErr (List UserSettings) :=
  ownedQueryset db.profiles email db.user_settings UserSettings.user

/-- `ProfileViewSet.get_queryset` (`core/views.py` lines 18-21): filters the
Profile table directly by the caller's raw email. -/
def ProfileViewSet.get_queryset (db : DB) (email : String) : List Profile :=
  db.profiles.filter (fun p => p.email == email)

/-- Modelled from the spec (section 4.4), for the refinement claim about the
profile resource: resolve the caller's Profile via the Identity Binder; on
failure the visible row set is empty; on success restrict the Profile rows
to those whose owning-Profile reference (for a profile row, its own primary
key) equals the resolved Profile. -/
def profileScopePerSpec (db : DB) (email : String) : List Profile :=
  match profileGet db.profiles email with
  | .ok p => db.profiles.filter (fun q => q.id == p.id)
  | .error _ => []

/-- The `profile` sub-dictionary built by `get_user_profile`
(`authentication/views.py` lines 93-100), as the ordered key/value list the
view returns: id, email, airline, position, created_at, updated_at. -/
def profilePayload (p : Profile) : List (String × String) :=
  [("id", toString p.id), ("email", p.email), ("airline", p.airline),
    ("position", p.position), ("created_at", toString p.created_at),
    ("updated_at", toString p.updated_at)]

/-- Outcome of the self-profile endpoint: 200 with user and profile data,
404 with an error message, or an uncaught exception (server error). -/
inductive ProfileEndpointResult where
  | ok (user : UserPublic) (profile : List (String × String))
  | notFound (error : String)
  | serverError
deriving DecidableEq

/-- `get_user_profile` (`authentication/views.py` lines 80-106): look the
Profile up by the authenticated user's email; 200 with user and profile
data on success, 404 on `DoesNotExist` (the only caught exception). -/
def get_user_profile (db : DB) (caller : Credential) : ProfileEndpointResult :=
  match profileGet db.profiles caller.email with
  | .ok p => .ok (userSerializer caller) (profilePayload p)
  | .error .doesNotExist => .notFound ("Profile not found")
  | .error .multipleReturned => .serverError

/-- Failure modes of a single-object viewset operation: DRF resolves the
object inside the scoped queryset, so a row outside it yields 404
(`notFound`), never 403 (`forbidden`); a create with an invalid payload
yields 400; an uncaught exception is a server error. -/
inductive HttpFail where
  | notFound
  | forbidden
  | badRequest
  | serverError
deriving DecidableEq

/-- DRF's `get_object` for a `ModelViewSet` (used by retrieve, update and
destroy): look the primary key up inside `get_queryset`; a miss is a 404. -/
def ownedGetObject {α : Type} (profiles : List Profile) (email : String)
    (rows : List α) (owner rowId : α → Nat) (pk : Nat) : Except HttpFail α :=
  match ownedQueryset profiles email rows owner with
  | .error _ => .error .serverError
  | .ok qs =>
    match qs.find? (fun r => rowId r == pk) with
    | some r => .ok r
    | none => .error .notFound

/-- `get_object` on `FlightViewSet`. -/
def FlightViewSet.get_object (db : DB) (email : String) (pk : Nat) :
    Except HttpFail Flight :=
  ownedGetObject db.profiles email db.flights Flight.user Flight.id pk

/-- `get_object` on `MonthlyCalculationViewSet`. -/
def MonthlyCalculationViewSet.get_object (db : DB) (email : String) (pk : Nat) :
    Except HttpFail MonthlyCalculation :=
  ownedGetObject db.profiles email db.monthly_calculations
    MonthlyCalculation.user MonthlyCalculation.id pk

/-- `get_object` on `UserSettingsViewSet`. -/
def UserSettingsViewSet.get_object (db : DB) (email : String) (pk : Nat) :
    Except HttpFail UserSettings :=
  ownedGetObject db.profiles email db.user_settings UserSettings.user
    UserSettings.id pk

/-- DRF destroy on `FlightViewSet`: resolve via `get_object`, then delete the
row with that primary key; any resolution failure leaves the store
unchanged. -/
def FlightViewSet.destroy (db : DB) (email : String) (pk : Nat) :
    Except HttpFail Unit × DB :=
  match FlightViewSet.get_object db email pk with
  | .error e => (.error e, db)
  | .ok _ => (.ok (),
      { db with flights := db.flights.filter (fun f => !(f.id == pk)) })

/-- DRF destroy on `MonthlyCalculationViewSet`. -/
def MonthlyCalculationViewSet.destroy (db : DB) (email : String) (pk : Nat) :
    Except HttpFail Unit × DB :=
  match MonthlyCalculationViewSet.get_object db email pk with
  | .error e => (.error e, db)
  | .ok _ => (.ok (),
      { db with monthly_calculations :=
          db.monthly_calculations.filter (fun m => !(m.id == pk)) })

/-- DRF destroy on `UserSettingsViewSet`. -/
def UserSettingsViewSet.destroy (db : DB) (email : String) (pk : Nat) :
    Except HttpFail Unit × DB :=
  match UserSettingsViewSet.get_object db email pk with
  | .error e => (.error e, db)
  | .ok _ => (.ok (),
      { db with user_settings :=
          db.user_settings.filter (fun s => !(s.id == pk)) })

/-- The writable fields of `FlightSerializer` (`core/serializers.py` lines
11-20): every model field except the read-only id and timestamps — in
particular the owning-Profile foreign key `user` is writable. -/
structure FlightPayload where
  user : Nat
  date : String
  flight_number : String
  sector : String
  reporting_time : String
  debriefing_time : String
  hours : Rat
  pay : Rat
  is_outbound : Bool
  is_turnaround : Bool
  is_layover : Bool
  is_asby : Bool
  month : Int
  year : Int
deriving DecidableEq

/-- The Flight row a successful create builds from the payload. -/
def mkFlight (payload : FlightPayload) (newId now : Nat) : Flight :=
  ⟨newId, payload.user, payload.date, payload.flight_number, payload.sector,
    payload.reporting_time, payload.debriefing_time, payload.hours,
    payload.pay, payload.is_outbound, payload.is_turnaround,
    payload.is_layover, payload.is_asby, payload.month, payload.year,
    now, now⟩

/-- DRF create on `FlightViewSet`: `FlightSerializer` validates only that the
referenced Profile exists (`PrimaryKeyRelatedField` over all profiles) and
saves; neither the view nor the serializer consults the caller's identity
(there is no `perform_create` override), so the authenticated email is
unused. -/
def FlightViewSet.create (db : DB) (_email : String) (payload : FlightPayload)
    (newId now : Nat) : Except HttpFail Flight × DB :=
  if db.profiles.any (fun p => p.id == payload.user) then
    (.ok (mkFlight payload newId now),
      { db with flights := db.flights ++ [mkFlight payload newId now] })
  else
    (.error .badRequest, db)

/-- The writable fields of `MonthlyCalculationSerializer`
(`core/serializers.py` lines 23-32); `user` is writable. -/
structure MonthlyCalculationPayload where
  user : Nat
  month : Int
  year : Int
  total_flight_hours : Rat
  flight_pay : Rat
  basic_salary : Rat
  housing_allowance : Rat
  transportation_allowance : Rat
  total_salary : Rat
deriving DecidableEq

/-- The MonthlyCalculation row a successful create builds. -/
def mkMonthlyCalculation (payload : MonthlyCalculationPayload)
    (newId now : Nat) : MonthlyCalculation :=
  ⟨newId, payload.user, payload.month, payload.year,
    payload.total_flight_hours, payload.flight_pay, payload.basic_salary,
    payload.housing_allowance, payload.transportation_allowance,
    payload.total_salary, now, now⟩

/-- DRF create on `MonthlyCalculationViewSet`: as for flights, only the
existence of the referenced Profile is validated; the caller's identity is
unused. -/
def MonthlyCalculationViewSet.create (db : DB) (_email : String)
    (payload : MonthlyCalculationPayload) (newId now : Nat) :
    Except HttpFail MonthlyCalculation × DB :=
  if db.profiles.any (fun p => p.id == payload.user) then
    (.ok (mkMonthlyCalculation payload newId now),
      { db with monthly_calculations :=
          db.monthly_calculations ++ [mkMonthlyCalculation payload newId now] })
  else
    (.error .badRequest, db)

/-- The writable fields of `UserSettingsSerializer` (`core/serializers.py`
lines 35-39); `user` is writable. -/
structure UserSettingsPayload where
  user : Nat
  settings : String
deriving DecidableEq

/-- The UserSettings row a successful create builds. -/
def mkUserSettings (payload : UserSettingsPayload) (newId now : Nat) :
    UserSettings :=
  ⟨newId, payload.user, payload.settings, now, now⟩

/-- DRF create on `UserSettingsViewSet`: the referenced Profile must exist
and — because `user` is a one-to-one field — must not already have a
settings row; the caller's identity is unused. -/
def UserSettingsViewSet.create (db : DB) (_email : String)
    (payload : UserSettingsPayload) (newId now : Nat) :
    Except HttpFail UserSettings × DB :=
  if db.profiles.any (fun p => p.id == payload.user) &&
      !(db.user_settings.any (fun s => s.user == payload.user)) then
    (.ok (mkUserSettings payload newId now),
      { db with user_settings :=
          db.user_settings ++ [mkUserSettings payload newId now] })
  else
    (.error .badRequest, db)

/-- The database invariant enforced by `unique=True` on `Profile.email`
(`core/models.py` line 11): no two Profile rows share an email. -/
def emailUnique (profiles : List Profile) : Prop :=
  profiles.Pairwise (fun p q => p.email ≠ q.email)

instance (profiles : List Profile) : Decidable (emailUnique profiles) := by
  unfold emailUnique
  infer_instance

/-- Sample credential with a paired profile. -/
def credA : Credential := ⟨1, "amira", "a@x.com", hashPassword ("p"), "", ""⟩

/-- Sample profile paired with `credA`; nationality is set. -/
def profA : Profile := ⟨1, "a@x.com", "EK", "CCM", some ("UAE"), 10, 20⟩

/-- Second sample credential with a paired profile. -/
def credB : Credential := ⟨2, "bruna", "b@x.com", hashPassword ("q"), "", ""⟩

/-- Profile paired with `credB`. -/
def profB : Profile := ⟨2, "b@x.com", "QR", "SCCM", none, 10, 20⟩

/-- Credential with no matching profile. -/
def credC : Credential := ⟨3, "cara", "c@x.com", hashPassword ("r"), "", ""⟩

/-- A flight owned by `profA`. -/
def flightA1 : Flight :=
  ⟨11, 1, "2025-01-02", "FZ001", "DXB-KHI", "08:00", "16:00", 8, 400,
    true, false, false, false, 1, 2025, 0, 0⟩

/-- A flight owned by `profB`. -/
def flightB1 : Flight :=
  ⟨12, 2, "2025-01-03", "QR100", "DOH-LHR", "06:00", "14:00", 7, 350,
    false, true, false, false, 1, 2025, 0, 0⟩

/-- A monthly calculation owned by `profA`. -/
def calcA1 : MonthlyCalculation :=
  ⟨21, 1, 1, 2025, 80, 4000, 5000, 2000, 500, 11500, 0, 0⟩

/-- A monthly calculation owned by `profB`. -/
def calcB1 : MonthlyCalculation :=
  ⟨22, 2, 1, 2025, 70, 3500, 6000, 2500, 600, 12600, 0, 0⟩

/-- Settings owned by `profA`. -/
def setA1 : UserSettings := ⟨31, 1, "theme=dark", 0, 0⟩

/-- Settings owned by `profB`. -/
def setB1 : UserSettings := ⟨32, 2, "theme=light", 0, 0⟩

/-- A sample store with two bound users, one unbound user, and rows owned by
both profiles. -/
def sampleDB : DB :=
  ⟨[credA, credB, credC], [profA, profB], [flightA1, flightB1],
    [calcA1, calcB1], [setA1, setB1]⟩

/-- A flight-create payload whose owning-Profile reference is `profB`,
submitted by the caller bound to `profA`. -/
def foreignPayload : FlightPayload :=
  ⟨2, "2025-02-01", "FZ900", "DXB-BOM", "09:00", "17:00", 8, 400,
    true, false, false, false, 2, 2025⟩

end Skywage

namespace Skywage

/-- `Profile.objects.get` raises `DoesNotExist` when no row matches. -/
theorem profileGet_of_findProfiles_nil {ps : List Profile} {e : String}
    (h : findProfiles ps e = []) : profileGet ps e = .error .doesNotExist := by
  simp [profileGet, h]

/-- `Profile.objects.get` returns the row when exactly one matches. -/
theorem profileGet_of_findProfiles_singleton {ps : List Profile} {e : String}
    {p : Profile} (h : findProfiles ps e = [p]) : profileGet ps e = .ok p := by
  simp [profileGet, h]

/-- Under the unique-email invariant, the Identity Binder's row set for any
email is empty or a singleton. -/
theorem findProfiles_nil_or_singleton {ps : List Profile}
    (hu : emailUnique ps) (e : String) :
    findProfiles ps e = [] ∨ ∃ p, findProfiles ps e = [p] := by
  induction ps with
  | nil => exact Or.inl rfl
  | cons a t ih =>
    rcases List.pairwise_cons.mp hu with ⟨ha, ht⟩
    by_cases hae : a.email = e
    · right
      refine ⟨a, ?_⟩
      have htnil : t.filter (fun p => p.email == e) = [] := by
        refine List.filter_eq_nil_iff.mpr ?_
        intro q hq
        have : a.email ≠ q.email := ha q hq
        simp only [beq_iff_eq]
        intro hqe
        exact this (hae.trans hqe.symm)
      simp [findProfiles, List.filter_cons, hae, htnil]
    · have : findProfiles (a :: t) e = findProfiles t e := by
        simp [findProfiles, List.filter_cons, hae]
      rw [this]
      exact ih ht

/-- A scoped queryset is empty when the caller's email matches no Profile. -/
theorem ownedQueryset_of_nil {α : Type} {ps : List Profile} {e : String}
    (rows : List α) (owner : α → Nat) (h : findProfiles ps e = []) :
    ownedQueryset ps e rows owner = .ok [] := by
  simp [ownedQueryset, profileGet_of_findProfiles_nil h]

/-- A scoped queryset filters by the resolved Profile's primary key when the
caller's email matches exactly one Profile. -/
theorem ownedQueryset_of_singleton {α : Type} {ps : List Profile} {e : String}
    {P : Profile} (rows : List α) (owner : α → Nat)
    (h : findProfiles ps e = [P]) :
    ownedQueryset ps e rows owner = .ok (rows.filter (fun r => owner r == P.id)) := by
  simp [ownedQueryset, profileGet_of_findProfiles_singleton h]

/-- Claim C1: a registration payload with all five required fields present,
a fresh username and an email fresh in both stores creates exactly one
Credential and exactly one Profile (all other tables untouched), the
Profile's id equals the new Credential's id, its email equals the
Credential's email, and the response is the 201 success response. -/
theorem register_success_creates_paired_rows (db : DB) (rq : RegisterRequest)
    (newId now : Nat)
    (hpres : requiredPresent rq = true)
    (huser : usernameExists db.users (rq.username.getD "") = false)
    (hmail : emailExists db (rq.email.getD "") = false) :
    ∃ (u : Credential) (p : Profile),
      register_user db rq newId now =
        (RegisterResult.created ("User registered successfully") (userSerializer u),
          { db with users := db.users ++ [u], profiles := db.profiles ++ [p] }) ∧
      p.id = u.id ∧ p.email = u.email ∧ u.id = newId := by
  refine ⟨mkCredential rq newId, mkRegProfile rq newId now, ?_, rfl, rfl, rfl⟩
  simp [register_user, hpres, huser, hmail]

/-- Witness for C1 at a concrete fresh payload and empty store. -/
theorem register_success_creates_paired_rows_witness :
    ∃ (u : Credential) (p : Profile),
      register_user ⟨[], [], [], [], []⟩
          ⟨some "amira", some "a@x.com", some "p", none, none, some "EK", some "CCM"⟩ 1 0 =
        (RegisterResult.created ("User registered successfully") (userSerializer u),
          { users := [] ++ [u], profiles := [] ++ [p], flights := [],
            monthly_calculations := [], user_settings := [] }) ∧
      p.id = u.id ∧ p.email = u.email ∧ u.id = 1 :=
  register_success_creates_paired_rows ⟨[], [], [], [], []⟩
    ⟨some "amira", some "a@x.com", some "p", none, none, some "EK", some "CCM"⟩ 1 0
    (by decide) (by decide) (by decide)

/-- Claim C2: registration validates in the fixed order missing-fields,
username-taken, email-taken-in-either-store; the first failing check
determines the 400 error message, and on every rejection path the whole
store is returned unchanged. -/
theorem register_validation_order (db : DB) (rq : RegisterRequest)
    (newId now : Nat) :
    (requiredPresent rq = false →
      register_user db rq newId now =
        (.badRequest ("Username, email, password, airline, and position are required"), db)) ∧
    (requiredPresent rq = true →
      usernameExists db.users (rq.username.getD "") = true →
      register_user db rq newId now =
        (.badRequest ("Username already exists"), db)) ∧
    (requiredPresent rq = true →
      usernameExists db.users (rq.username.getD "") = false →
      emailExists db (rq.email.getD "") = true →
      register_user db rq newId now =
        (.badRequest ("Email already exists"), db)) := by
  refine ⟨fun h1 => ?_, fun h1 h2 => ?_, fun h1 h2 h3 => ?_⟩
  · simp [register_user, h1]
  · simp [register_user, h1, h2]
  · simp [register_user, h1, h2, h3]

/-- Witness for C2: each rejection branch at a concrete payload and store,
with the store returned unchanged. -/
theorem register_validation_order_witness :
    register_user sampleDB ⟨some "dina", some "d@x.com", none, none, none, some "EK", some "CCM"⟩ 9 0 =
      (.badRequest ("Username, email, password, airline, and position are required"), sampleDB) ∧
    register_user sampleDB ⟨some "amira", some "d@x.com", some "p", none, none, some "EK", some "CCM"⟩ 9 0 =
      (.badRequest ("Username already exists"), sampleDB) ∧
    register_user sampleDB ⟨some "dina", some "a@x.com", some "p", none, none, some "EK", some "CCM"⟩ 9 0 =
      (.badRequest ("Email already exists"), sampleDB) :=
  ⟨(register_validation_order sampleDB
      ⟨some "dina", some "d@x.com", none, none, none, some "EK", some "CCM"⟩ 9 0).1
      (by decide),
   (register_validation_order sampleDB
      ⟨some "amira", some "d@x.com", some "p", none, none, some "EK", some "CCM"⟩ 9 0).2.1
      (by decide) (by decide),
   (register_validation_order sampleDB
      ⟨some "dina", some "a@x.com", some "p", none, none, some "EK", some "CCM"⟩ 9 0).2.2
      (by decide) (by decide) (by decide)⟩

/-- Claim C3: under the unique-email database invariant, token issuance
always succeeds; when no Profile matches the user's email the token omits
the airline/position/profile-id claims, and when one matches the claims
equal that Profile's airline, position, and stringified id. -/
theorem token_enrichment_best_effort (profiles : List Profile)
    (user : Credential) (hu : emailUnique profiles) :
    (∃ t, get_token profiles user = .ok t) ∧
    (findProfiles profiles user.email = [] →
      get_token profiles user = .ok ⟨none, none, none⟩) ∧
    (∀ p, findProfiles profiles user.email = [p] →
      get_token profiles user =
        .ok ⟨some p.airline, some p.position, some (toString p.id)⟩) := by
  refine ⟨?_, fun h => ?_, fun p h => ?_⟩
  · rcases findProfiles_nil_or_singleton hu user.email with h | ⟨p, h⟩
    · exact ⟨⟨none, none, none⟩, by simp [get_token, profileGet_of_findProfiles_nil h]⟩
    · exact ⟨⟨some p.airline, some p.position, some (toString p.id)⟩,
        by simp [get_token, profileGet_of_findProfiles_singleton h]⟩
  · simp [get_token, profileGet_of_findProfiles_nil h]
  · simp [get_token, profileGet_of_findProfiles_singleton h]

/-- Witness for C3: a bound user gets the profile claims, an unbound user a
bare token. -/
theorem token_enrichment_best_effort_witness :
    (∃ t, get_token sampleDB.profiles credC = .ok t) ∧
    get_token sampleDB.profiles credC = .ok ⟨none, none, none⟩ ∧
    get_token sampleDB.profiles credA =
      .ok ⟨some ("EK"), some ("CCM"), some ("1")⟩ :=
  ⟨(token_enrichment_best_effort sampleDB.profiles credC (by decide)).1,
   (token_enrichment_best_effort sampleDB.profiles credC (by decide)).2.1
     (by decide),
   (token_enrichment_best_effort sampleDB.profiles credA (by decide)).2.2
     profA (by decide)⟩

/-- Claim C4: a caller whose email matches no Profile gets an empty (not
erroneous) result from each of the flight, monthly-calculation and
user-settings list queries, and a 404 from the self-profile endpoint. -/
theorem unbound_caller_empty_results (db : DB) (caller : Credential)
    (h : findProfiles db.profiles caller.email = []) :
    FlightViewSet.get_queryset db caller.email = .ok [] ∧
    MonthlyCalculationViewSet.get_queryset db caller.email = .ok [] ∧
    UserSettingsViewSet.get_queryset db caller.email = .ok [] ∧
    get_user_profile db caller = .notFound ("Profile not found") := by
  refine ⟨?_, ?_, ?_, ?_⟩
  · exact ownedQueryset_of_nil db.flights Flight.user h
  · exact ownedQueryset_of_nil db.monthly_calculations MonthlyCalculation.user h
  · exact ownedQueryset_of_nil db.user_settings UserSettings.user h
  · simp [get_user_profile, profileGet_of_findProfiles_nil h]

/-- Witness for C4 at the unbound caller `credC` in a store that has rows
owned by other profiles. -/
theorem unbound_caller_empty_results_witness :
    FlightViewSet.get_queryset sampleDB credC.email = .ok [] ∧
    MonthlyCalculationViewSet.get_queryset sampleDB credC.email = .ok [] ∧
    UserSettingsViewSet.get_queryset sampleDB credC.email = .ok [] ∧
    get_user_profile sampleDB credC = .notFound ("Profile not found") :=
  unbound_caller_empty_results sampleDB credC (by decide)

/-- Claim C5: a caller whose email matches exactly the Profile `P` gets,
from each scoped list query, exactly the rows whose owning-Profile foreign
key equals `P`: every row owned by `P` is included and no row owned by any
other profile is. -/
theorem bound_caller_exactly_own_rows (db : DB) (email : String) (P : Profile)
    (h : findProfiles db.profiles email = [P]) :
    (∃ fs, FlightViewSet.get_queryset db email = .ok fs ∧
      ∀ f : Flight, f ∈ fs ↔ f ∈ db.flights ∧ f.user = P.id) ∧
    (∃ ms, MonthlyCalculationViewSet.get_queryset db email = .ok ms ∧
      ∀ m : MonthlyCalculation,
        m ∈ ms ↔ m ∈ db.monthly_calculations ∧ m.user = P.id) ∧
    (∃ ss, UserSettingsViewSet.get_queryset db email = .ok ss ∧
      ∀ s : UserSettings, s ∈ ss ↔ s ∈ db.user_settings ∧ s.user = P.id) := by
  refine ⟨⟨_, ownedQueryset_of_singleton db.flights Flight.user h, ?_⟩,
    ⟨_, ownedQueryset_of_singleton db.monthly_calculations MonthlyCalculation.user h, ?_⟩,
    ⟨_, ownedQueryset_of_singleton db.user_settings UserSettings.user h, ?_⟩⟩
  · intro f; simp [List.mem_filter]
  · intro m; simp [List.mem_filter]
  · intro s; simp [List.mem_filter]

/-- Witness for C5: the caller bound to `profA` in a store that also holds
rows of `profB`. -/
theorem bound_caller_exactly_own_rows_witness :
    (∃ fs, FlightViewSet.get_queryset sampleDB ("a@x.com") = .ok fs ∧
      ∀ f : Flight, f ∈ fs ↔ f ∈ sampleDB.flights ∧ f.user = profA.id) ∧
    (∃ ms, MonthlyCalculationViewSet.get_queryset sampleDB ("a@x.com") = .ok ms ∧
      ∀ m : MonthlyCalculation,
        m ∈ ms ↔ m ∈ sampleDB.monthly_calculations ∧ m.user = profA.id) ∧
    (∃ ss, UserSettingsViewSet.get_queryset sampleDB ("a@x.com") = .ok ss ∧
      ∀ s : UserSettings,
        s ∈ ss ↔ s ∈ sampleDB.user_settings ∧ s.user = profA.id) :=
  bound_caller_exactly_own_rows sampleDB ("a@x.com") profA (by decide)

/-- `get_object` misses (404) on any existing row owned by a profile other
than the caller's resolved one, provided row primary keys are unique. -/
theorem ownedGetObject_foreign_notFound {α : Type} {ps : List Profile}
    {e : String} {P : Profile} (rows : List α) (owner rowId : α → Nat)
    (hP : findProfiles ps e = [P]) (hids : (rows.map rowId).Nodup)
    {r : α} (hr : r ∈ rows) (hown : owner r ≠ P.id) :
    ownedGetObject ps e rows owner rowId (rowId r) = .error .notFound := by
  have hq := ownedQueryset_of_singleton rows owner hP
  have hfind : (rows.filter (fun x => owner x == P.id)).find?
      (fun x => rowId x == rowId r) = none := by
    refine List.find?_eq_none.mpr ?_
    intro g hg
    rcases List.mem_filter.mp hg with ⟨hgrows, hgown⟩
    simp only [beq_iff_eq] at hgown
    simp only [beq_iff_eq]
    intro hgid
    have hgr : g = r := List.inj_on_of_nodup_map hids hgrows hr hgid
    exact hown (hgr ▸ hgown)
  simp [ownedGetObject, hq, hfind]

/-- Counterexample to claim C6: in `sampleDB` the caller bound to `profA`
(id 1) issues a flight create whose owning-Profile reference is `profB`
(id 2); the create succeeds and stores the foreign owner, so a create can
produce a row owned by a Profile other than the caller's. -/
theorem flight_create_ignores_caller_scope :
    profileGet sampleDB.profiles ("a@x.com") = .ok profA ∧
    FlightViewSet.create sampleDB ("a@x.com") foreignPayload 40 5 =
      (.ok (mkFlight foreignPayload 40 5),
        { sampleDB with
            flights := sampleDB.flights ++ [mkFlight foreignPayload 40 5] }) ∧
    (mkFlight foreignPayload 40 5).user = profB.id ∧
    profB.id ≠ profA.id := by
  refine ⟨by decide, ?_, by decide, by decide⟩
  simp [FlightViewSet.create, sampleDB, foreignPayload, profA, profB,
    credA, credB, credC, flightA1, flightB1, calcA1, calcB1, setA1, setB1]

/-- Claim C6 as amended: update and delete resolve their target inside the
caller's scoped queryset, so a row owned by another profile yields 404
(never a 403) and delete leaves the store unchanged; create, however, is not
scoped — each serializer's owning-Profile field is writable and only checked
for existence, so the created row's owner is the payload's reference
verbatim, whether or not it is the caller's profile. -/
theorem mutation_scoping_amended (db : DB) (email : String) (P : Profile)
    (hP : findProfiles db.profiles email = [P])
    (hfid : (db.flights.map Flight.id).Nodup)
    (hmid : (db.monthly_calculations.map MonthlyCalculation.id).Nodup)
    (hsid : (db.user_settings.map UserSettings.id).Nodup) :
    (∀ f ∈ db.flights, f.user ≠ P.id →
      FlightViewSet.get_object db email f.id = .error .notFound ∧
      FlightViewSet.destroy db email f.id = (.error .notFound, db)) ∧
    (∀ m ∈ db.monthly_calculations, m.user ≠ P.id →
      MonthlyCalculationViewSet.get_object db email m.id = .error .notFound ∧
      MonthlyCalculationViewSet.destroy db email m.id = (.error .notFound, db)) ∧
    (∀ s ∈ db.user_settings, s.user ≠ P.id →
      UserSettingsViewSet.get_object db email s.id = .error .notFound ∧
      UserSettingsViewSet.destroy db email s.id = (.error .notFound, db)) ∧
    (∀ (payload : FlightPayload) (newId now : Nat),
      db.profiles.any (fun q => q.id == payload.user) = true →
      FlightViewSet.create db email payload newId now =
        (.ok (mkFlight payload newId now),
          { db with flights := db.flights ++ [mkFlight payload newId now] }) ∧
      (mkFlight payload newId now).user = payload.user) ∧
    (∀ (payload : MonthlyCalculationPayload) (newId now : Nat),
      db.profiles.any (fun q => q.id == payload.user) = true →
      MonthlyCalculationViewSet.create db email payload newId now =
        (.ok (mkMonthlyCalculation payload newId now),
          { db with monthly_calculations :=
              db.monthly_calculations ++ [mkMonthlyCalculation payload newId now] }) ∧
      (mkMonthlyCalculation payload newId now).user = payload.user) ∧
    (∀ (payload : UserSettingsPayload) (newId now : Nat),
      (db.profiles.any (fun q => q.id == payload.user) &&
        !(db.user_settings.any (fun s => s.user == payload.user))) = true →
      UserSettingsViewSet.create db email payload newId now =
        (.ok (mkUserSettings payload newId now),
          { db with user_settings :=
              db.user_settings ++ [mkUserSettings payload newId now] }) ∧
      (mkUserSettings payload newId now).user = payload.user) := by
  refine ⟨fun f hf hown => ?_, fun m hm hown => ?_, fun s hs hown => ?_,
    fun payload newId now hpay => ?_, fun payload newId now hpay => ?_,
    fun payload newId now hpay => ?_⟩
  · have hobj := ownedGetObject_foreign_notFound db.flights Flight.user
      Flight.id hP hfid hf hown
    exact ⟨hobj, by simp [FlightViewSet.destroy, FlightViewSet.get_object, hobj]⟩
  · have hobj := ownedGetObject_foreign_notFound db.monthly_calculations
      MonthlyCalculation.user MonthlyCalculation.id hP hmid hm hown
    exact ⟨hobj,
      by simp [MonthlyCalculationViewSet.destroy,
        MonthlyCalculationViewSet.get_object, hobj]⟩
  · have hobj := ownedGetObject_foreign_notFound db.user_settings
      UserSettings.user UserSettings.id hP hsid hs hown
    exact ⟨hobj,
      by simp [UserSettingsViewSet.destroy, UserSettingsViewSet.get_object, hobj]⟩
  · exact ⟨by simp [FlightViewSet.create, hpay], rfl⟩
  · exact ⟨by simp [MonthlyCalculationViewSet.create, hpay], rfl⟩
  · exact ⟨by simp [UserSettingsViewSet.create, hpay], rfl⟩

/-- Witness for the amended C6 at `sampleDB`: the caller bound to `profA`
gets 404 for `profB`'s rows, delete leaves the store unchanged, and a create
referencing `profB` stores that foreign owner. -/
theorem mutation_scoping_amended_witness :
    (FlightViewSet.get_object sampleDB ("a@x.com") flightB1.id = .error .notFound ∧
      FlightViewSet.destroy sampleDB ("a@x.com") flightB1.id = (.error .notFound, sampleDB)) ∧
    (MonthlyCalculationViewSet.get_object sampleDB ("a@x.com") calcB1.id = .error .notFound ∧
      MonthlyCalculationViewSet.destroy sampleDB ("a@x.com") calcB1.id = (.error .notFound, sampleDB)) ∧
    (UserSettingsViewSet.get_object sampleDB ("a@x.com") setB1.id = .error .notFound ∧
      UserSettingsViewSet.destroy sampleDB ("a@x.com") setB1.id = (.error .notFound, sampleDB)) ∧
    (FlightViewSet.create sampleDB ("a@x.com") foreignPayload 40 5 =
      (.ok (mkFlight foreignPayload 40 5),
        { sampleDB with
            flights := sampleDB.flights ++ [mkFlight foreignPayload 40 5] }) ∧
      (mkFlight foreignPayload 40 5).user = foreignPayload.user) := by
  have T := mutation_scoping_amended sampleDB ("a@x.com") profA
    (by decide) (by decide) (by decide) (by decide)
  exact ⟨T.1 flightB1 (by decide) (by decide),
    T.2.1 calcB1 (by decide) (by decide),
    T.2.2.1 setB1 (by decide) (by decide),
    T.2.2.2.1 foreignPayload 40 5 (by decide)⟩

/-- Counterexample to claim C7: `profA` has a nationality, yet the
self-profile response built for its bound caller carries no nationality key
— the view's response dictionary enumerates only id, email, airline,
position and the timestamps. -/
theorem profile_endpoint_omits_nationality :
    profA.nationality = some ("UAE") ∧
    get_user_profile sampleDB credA =
      .ok (userSerializer credA) (profilePayload profA) ∧
    ("nationality") ∉ (profilePayload profA).map Prod.fst := by
  refine ⟨by decide, by decide, by decide⟩

/-- Claim C7 as amended: the self-profile endpoint returns the caller's
login-identity fields together with the Profile fields id, email, airline,
position, created_at and updated_at (nationality is omitted) when a Profile
with the caller's email exists, and a 404 when none does. -/
theorem profile_endpoint_fields (db : DB) (caller : Credential) :
    (findProfiles db.profiles caller.email = [] →
      get_user_profile db caller = .notFound ("Profile not found")) ∧
    (∀ p, findProfiles db.profiles caller.email = [p] →
      get_user_profile db caller = .ok (userSerializer caller) (profilePayload p) ∧
      (profilePayload p).map Prod.fst =
        ["id", "email", "airline", "position", "created_at", "updated_at"]) := by
  refine ⟨fun h => ?_, fun p h => ⟨?_, by simp [profilePayload]⟩⟩
  · simp [get_user_profile, profileGet_of_findProfiles_nil h]
  · simp [get_user_profile, profileGet_of_findProfiles_singleton h]

/-- Witness for the amended C7: a bound caller gets the six profile fields,
an unbound caller a 404. -/
theorem profile_endpoint_fields_witness :
    get_user_profile sampleDB credA =
      .ok (userSerializer credA) (profilePayload profA) ∧
    (profilePayload profA).map Prod.fst =
      ["id", "email", "airline", "position", "created_at", "updated_at"] ∧
    get_user_profile sampleDB credC = .notFound ("Profile not found") :=
  ⟨((profile_endpoint_fields sampleDB credA).2 profA (by decide)).1,
   ((profile_endpoint_fields sampleDB credA).2 profA (by decide)).2,
   (profile_endpoint_fields sampleDB credC).1 (by decide)⟩

/-- With distinct primary keys, filtering a profile list by a member's id
returns exactly that member. -/
theorem filter_by_id_eq_singleton {l : List Profile} {p : Profile}
    (hids : (l.map Profile.id).Nodup) (hp : p ∈ l) :
    l.filter (fun q => q.id == p.id) = [p] := by
  induction l with
  | nil => cases hp
  | cons a t ih =>
    rw [List.map_cons, List.nodup_cons] at hids
    rcases hids with ⟨hna, hnt⟩
    rcases List.mem_cons.mp hp with rfl | hpt
    · have htnil : t.filter (fun q => q.id == p.id) = [] := by
        refine List.filter_eq_nil_iff.mpr ?_
        intro q hq
        simp only [beq_iff_eq]
        intro hqid
        have hmem : q.id ∈ t.map Profile.id := List.mem_map_of_mem Profile.id hq
        rw [hqid] at hmem
        exact hna hmem
      simp [List.filter_cons, htnil]
    · have hane : a.id ≠ p.id := by
        intro hid
        have hmem : p.id ∈ t.map Profile.id := List.mem_map_of_mem Profile.id hpt
        rw [← hid] at hmem
        exact hna hmem
      simp [List.filter_cons, hane, ih hnt hpt]

/-- Claim C8: on any store satisfying the unique-email invariant (with the
primary-key uniqueness every database row set has), the implemented profile
scoping — filtering Profile rows by the caller's raw email — returns exactly
the row set of the specified scoping: resolve via the Identity Binder and
restrict to rows whose key equals the resolved Profile's; at most the one
bound Profile, and the empty set when resolution fails. -/
theorem profile_scope_refines_spec (db : DB) (email : String)
    (hu : emailUnique db.profiles)
    (hids : (db.profiles.map Profile.id).Nodup) :
    ProfileViewSet.get_queryset db email = profileScopePerSpec db email ∧
    (findProfiles db.profiles email = [] →
      ProfileViewSet.get_queryset db email = []) ∧
    (∀ p, findProfiles db.profiles email = [p] →
      ProfileViewSet.get_queryset db email = [p]) := by
  have himpl : ProfileViewSet.get_queryset db email = findProfiles db.profiles email := rfl
  refine ⟨?_, fun h => by rw [himpl, h], fun p h => by rw [himpl, h]⟩
  rcases findProfiles_nil_or_singleton hu email with h | ⟨p, h⟩
  · rw [himpl, h, profileScopePerSpec, profileGet_of_findProfiles_nil h]
  · have hp : p ∈ db.profiles := by
      have hmem : p ∈ findProfiles db.profiles email := by
        rw [h]; exact List.mem_singleton_self p
      simp only [findProfiles] at hmem
      exact List.mem_of_mem_filter hmem
    rw [himpl, h]
    simp only [profileScopePerSpec, profileGet_of_findProfiles_singleton h]
    exact (filter_by_id_eq_singleton hids hp).symm

/-- Witness for C8 at `sampleDB` with the caller bound to `profA`. -/
theorem profile_scope_refines_spec_witness :
    ProfileViewSet.get_queryset sampleDB ("a@x.com") =
      profileScopePerSpec sampleDB ("a@x.com") ∧
    ProfileViewSet.get_queryset sampleDB ("a@x.com") = [profA] :=
  ⟨(profile_scope_refines_spec sampleDB ("a@x.com") (by decide) (by decide)).1,
   (profile_scope_refines_spec sampleDB ("a@x.com") (by decide) (by decide)).2.2
     profA (by decide)⟩

/-- Claim C9: a successful registration response carries exactly the created
login identity's public fields — id, username, email, first and last name —
and is invariant under the submitted password: two valid payloads differing
only in their password produce identical success responses (given the same
generated id). -/
theorem register_response_password_free (db : DB) (rq : RegisterRequest)
    (pw1 pw2 : Option String) (newId now : Nat)
    (hp1 : truthy pw1 = true) (hp2 : truthy pw2 = true)
    (hu : truthy rq.username = true) (he : truthy rq.email = true)
    (ha : truthy rq.airline = true) (hpos : truthy rq.position = true)
    (huser : usernameExists db.users (rq.username.getD "") = false)
    (hmail : emailExists db (rq.email.getD "") = false) :
    (register_user db { rq with password := pw1 } newId now).1 =
      RegisterResult.created ("User registered successfully")
        ⟨newId, rq.username.getD "", rq.email.getD "", rq.first_name.getD "",
          rq.last_name.getD ""⟩ ∧
    (register_user db { rq with password := pw2 } newId now).1 =
      (register_user db { rq with password := pw1 } newId now).1 := by
  constructor
  · simp [register_user, requiredPresent, hu, he, hp1, ha, hpos, huser, hmail,
      userSerializer, mkCredential]
  · simp [register_user, requiredPresent, hu, he, hp1, hp2, ha, hpos, huser,
      hmail, userSerializer, mkCredential]

/-- Witness for C9: two concrete registrations differing only in password
yield the same success response. -/
theorem register_response_password_free_witness :
    (register_user sampleDB
        ⟨some "dina", some "d@x.com", some "s1", some "D", some "N",
          some "EK", some "CCM"⟩ 9 0).1 =
      RegisterResult.created ("User registered successfully")
        ⟨9, "dina", "d@x.com", "D", "N"⟩ ∧
    (register_user sampleDB
        ⟨some "dina", some "d@x.com", some "s2", some "D", some "N",
          some "EK", some "CCM"⟩ 9 0).1 =
      (register_user sampleDB
        ⟨some "dina", some "d@x.com", some "s1", some "D", some "N",
          some "EK", some "CCM"⟩ 9 0).1 :=
  register_response_password_free sampleDB
    ⟨some "dina", some "d@x.com", none, some "D", some "N",
      some "EK", some "CCM"⟩
    (some "s1") (some "s2") 9 0 (by decide) (by decide) (by decide)
    (by decide) (by decide) (by decide) (by decide) (by decide)

/-- Claim C10: a payload passing the presence and uniqueness checks is
stored with its position value verbatim — `register_user` never compares
position against the CCM/SCCM enum (Django's `.objects.create` does not
enforce `choices`), so any truthy position string becomes the new Profile's
position. -/
theorem register_position_verbatim (db : DB) (rq : RegisterRequest)
    (newId now : Nat)
    (hpres : requiredPresent rq = true)
    (huser : usernameExists db.users (rq.username.getD "") = false)
    (hmail : emailExists db (rq.email.getD "") = false) :
    (∃ u, (register_user db rq newId now).1 =
      .created ("User registered successfully") u) ∧
    (register_user db rq newId now).2.profiles =
      db.profiles ++ [⟨newId, rq.email.getD "", rq.airline.getD "",
        rq.position.getD "", none, now, now⟩] := by
  refine ⟨⟨userSerializer (mkCredential rq newId), ?_⟩, ?_⟩
  · simp [register_user, hpres, huser, hmail]
  · simp [register_user, hpres, huser, hmail, mkRegProfile]

/-- Witness for C10: the position string is not one of the two enum values,
yet registration succeeds and stores it on the Profile verbatim. -/
theorem register_position_verbatim_witness :
    ("CAPTAIN" : String) ≠ "CCM" ∧ ("CAPTAIN" : String) ≠ "SCCM" ∧
    (∃ u, (register_user sampleDB
        ⟨some "dina", some "d@x.com", some "s1", none, none,
          some "EK", some "CAPTAIN"⟩ 9 0).1 =
      .created ("User registered successfully") u) ∧
    (register_user sampleDB
        ⟨some "dina", some "d@x.com", some "s1", none, none,
          some "EK", some "CAPTAIN"⟩ 9 0).2.profiles =
      sampleDB.profiles ++ [⟨9, "d@x.com", "EK", "CAPTAIN", none, 0, 0⟩] :=
  ⟨by decide, by decide,
   (register_position_verbatim sampleDB
      ⟨some "dina", some "d@x.com", some "s1", none, none,
        some "EK", some "CAPTAIN"⟩ 9 0
      (by decide) (by decide) (by decide)).1,
   (register_position_verbatim sampleDB
      ⟨some "dina", some "d@x.com", some "s1", none, none,
        some "EK", some "CAPTAIN"⟩ 9 0
      (by decide) (by decide) (by decide)).2⟩

end Skywage
